import Mathlib

/-!
Verification of the Funko memory game API (funko-memory-game-api).

Shallow embedding of the score routes in src/routes/gameRoutes.js (the
current revision, the one registering the protect middleware), the auth
routes, and the server wiring in src/server.js.  JavaScript numbers that
the handlers treat as integers (time, moves, timestamps in milliseconds)
are modelled as Int; Number.parseInt is the identity on these integer
inputs.  The MongoDB collection backing the Score model is modelled as a
list of ScoreRecord values, and each handler is a pure function from the
store (plus the request) to a response paired with the updated store.
-/

namespace FunkoAPI

/-- A calendar date, standing for the date part of a JS Date; the handler
renders it with toISOString().split("T")[0], i.e. zero-padded
YYYY-MM-DD. -/
structure DateYMD where
  year : Nat
  month : Nat
  day : Nat
  deriving DecidableEq, Repr

/-- One persisted document of the scores collection, following the mongoose
schema in src/models/Score.js: playerName, optional userId, category,
difficulty, time, moves, derived score, date, and the createdAt timestamp
added by the timestamps option (modelled in epoch milliseconds). -/
structure ScoreRecord where
  id : Nat
  playerName : String
  userId : Option Nat
  category : String
  difficulty : String
  time : Int
  moves : Int
  score : Int
  date : DateYMD
  createdAt : Int
  deriving DecidableEq, Repr

/-- An entry of the static category / difficulty tables in gameRoutes.js. -/
structure GameOption where
  id : String
  name : String
  description : String
  deriving DecidableEq, Repr

/-- The gameCategories table from gameRoutes.js. -/
def gameCategories : List GameOption :=
  [⟨"heroes", "Heroes", "Superhero Funko Pops"⟩,
   ⟨"movies", "Movies", "Movie character Funko Pops"⟩,
   ⟨"musicians", "Musicians", "Music artist Funko Pops"⟩,
   ⟨"videogames", "Video Games", "Video game character Funko Pops"⟩]

/-- The gameDifficulties table from gameRoutes.js. -/
def gameDifficulties : List GameOption :=
  [⟨"easy", "Easy", "Perfect for beginners"⟩,
   ⟨"medium", "Medium", "Good challenge"⟩,
   ⟨"hard", "Hard", "For experts"⟩]

/-- The body of a POST /api/scores request.  A missing JSON field is none.
The handler destructures only playerName, category, difficulty, time and
moves from req.body; the score field models a client-supplied score entry
in the body, which the handler never reads. -/
structure ScoreRequest where
  playerName : Option String := none
  category : Option String := none
  difficulty : Option String := none
  time : Option Int := none
  moves : Option Int := none
  score : Option Int := none
  deriving DecidableEq, Repr

/-- JS truthiness of a possibly-missing string field: undefined and the
empty string are falsy. -/
def truthyStr : Option String → Bool
  | none => false
  | some s => !(s == "")

/-- The basic-validation presence test of the POST handler:
playerName, category and difficulty truthy, time and moves not undefined. -/
def hasRequiredFields (req : ScoreRequest) : Bool :=
  truthyStr req.playerName && truthyStr req.category && truthyStr req.difficulty
    && req.time.isSome && req.moves.isSome

/-- Error message of the presence check. -/
def missingFieldsMsg : String :=
  "Missing required fields: playerName, category, difficulty, time, moves"

/-- Error message of the category check, built by joining the category ids
exactly as the handler does. -/
def invalidCategoryMsg : String :=
  "Invalid category. Valid categories: "
    ++ String.intercalate ", " (gameCategories.map (fun c => c.id))

/-- Error message of the difficulty check. -/
def invalidDifficultyMsg : String :=
  "Invalid difficulty. Valid difficulties: "
    ++ String.intercalate ", " (gameDifficulties.map (fun d => d.id))

/-- Drop leading whitespace characters from a character list. -/
def dropLeadingWS : List Char → List Char
  | [] => []
  | c :: cs => if c.isWhitespace then dropLeadingWS cs else c :: cs

/-- The JS String.prototype.trim operation: remove leading and trailing
whitespace. -/
def jsTrim (s : String) : String :=
  String.mk (((dropLeadingWS ((dropLeadingWS s.data).reverse)).reverse))

/-- ASCII lower-casing of one character, as performed by the
case-insensitive regex flag on plain names. -/
def charLower (c : Char) : Char :=
  if 65 ≤ c.toNat ∧ c.toNat ≤ 90 then Char.ofNat (c.toNat + 32) else c

/-- Lower-casing of a string, character by character. -/
def jsToLower (s : String) : String :=
  String.mk (s.data.map charLower)

/-- The case-insensitive anchored regex match used by the duplicate query:
for plain player names this is equality up to letter case, modelled by
lower-casing both sides. -/
def sameNameCaseInsensitive (a b : String) : Bool :=
  jsToLower a == jsToLower b

/-- The Score.findOne duplicate query of the POST handler: any stored
record with the same player name up to case (the regex is built from the
trimmed submitted name), same category and difficulty, createdAt within
the last 10 seconds (10000 ms), time within 5 of the submitted time and
moves within 2 of the submitted moves. -/
def isRecentDuplicate (store : List ScoreRecord) (now : Int)
    (playerName category difficulty : String) (time moves : Int) : Bool :=
  store.any fun r =>
    sameNameCaseInsensitive r.playerName (jsTrim playerName)
      && r.category == category
      && r.difficulty == difficulty
      && decide (now - 10000 ≤ r.createdAt)
      && decide (time - 5 ≤ r.time) && decide (r.time ≤ time + 5)
      && decide (moves - 2 ≤ r.moves) && decide (r.moves ≤ moves + 2)

/-- The score derivation of the POST handler:
Math.max(1000 - (time * 5 + moves * 2), 0). -/
def calculatedScore (time moves : Int) : Int :=
  max (1000 - (time * 5 + moves * 2)) 0

/-- The responses the POST /api/scores handler can produce. -/
inductive PostResponse where
  | created (data : ScoreRecord)
  | validationError (error : String)
  | duplicateError (error message : String)
  deriving DecidableEq, Repr

/-- HTTP status of each POST /api/scores response. -/
def PostResponse.status : PostResponse → Nat
  | .created _ => 201
  | .validationError _ => 400
  | .duplicateError _ _ => 409

/-- The POST /api/scores handler (current revision of gameRoutes.js):
presence check, time range check, moves range check, category check,
difficulty check, duplicate query, then score computation and insert.
The ambient data the real handler reads from its environment is passed
explicitly: the store, the current time in ms, the id the database will
assign, the authenticated userId set by the protect middleware, and the
current date used for the date default of the schema. -/
def postScoresHandler (store : List ScoreRecord) (now : Int) (nextId : Nat)
    (userId : Nat) (today : DateYMD) (req : ScoreRequest) :
    PostResponse × List ScoreRecord :=
  if !hasRequiredFields req then
    (.validationError missingFieldsMsg, store)
  else
    let playerName := req.playerName.getD ""
    let category := req.category.getD ""
    let difficulty := req.difficulty.getD ""
    let time := req.time.getD 0
    let moves := req.moves.getD 0
    if time < 1 ∨ time > 3600 then
      (.validationError "Invalid time value", store)
    else if moves < 1 ∨ moves > 1000 then
      (.validationError "Invalid moves value", store)
    else if (gameCategories.find? (fun cat => cat.id == category)).isNone then
      (.validationError invalidCategoryMsg, store)
    else if (gameDifficulties.find? (fun diff => diff.id == difficulty)).isNone then
      (.validationError invalidDifficultyMsg, store)
    else if isRecentDuplicate store now playerName category difficulty time moves then
      (.duplicateError "Duplicate score detected"
        "A very similar score was already submitted recently", store)
    else
      let newScore : ScoreRecord :=
        { id := nextId
          playerName := jsTrim playerName
          userId := some userId
          category := category
          difficulty := difficulty
          time := time
          moves := moves
          score := calculatedScore time moves
          date := today
          createdAt := now }
      (.created newScore, store ++ [newScore])

/-- The category filter of GET /api/scores: a clause is added to the query
only when the category parameter is truthy and not the literal "all". -/
def matchesCategoryFilter (category : Option String) (r : ScoreRecord) : Bool :=
  match category with
  | none => true
  | some c => if c ≠ "" ∧ c ≠ "all" then r.category == c else true

/-- The difficulty filter of GET /api/scores, built the same way. -/
def matchesDifficultyFilter (difficulty : Option String) (r : ScoreRecord) : Bool :=
  match difficulty with
  | none => true
  | some d => if d ≠ "" ∧ d ≠ "all" then r.difficulty == d else true

/-- Conjunction of both filter clauses. -/
def matchesFilter (category difficulty : Option String) (r : ScoreRecord) : Bool :=
  matchesCategoryFilter category r && matchesDifficultyFilter difficulty r

/-- The sort key of the leaderboard query: sort by time ascending, then by
moves ascending. -/
def scoreSortLE (a b : ScoreRecord) : Bool :=
  decide (a.time < b.time) || (a.time == b.time && decide (a.moves ≤ b.moves))

/-- The record-selection pipeline shared by GET /api/scores:
filter, sort by time then moves, skip (page - 1) * limitNum records and
apply .limit(limitNum), where limitNum is the limit parameter (default 50)
capped at 100 and page defaults to 1.  MongoDB treats limit(0) as no
limit, so a zero limitNum returns every record past the skip; a positive
limitNum keeps at most limitNum records. -/
def selectScores (store : List ScoreRecord) (category difficulty : Option String)
    (limit : Option Nat) (page : Option Int) : List ScoreRecord :=
  let limitNum := min (limit.getD 50) 100
  let pageNum := page.getD 1
  let skip := ((pageNum - 1) * (limitNum : Int)).toNat
  let sorted := (store.filter (matchesFilter category difficulty)).mergeSort scoreSortLE
  if limitNum = 0 then sorted.drop skip
  else (sorted.drop skip).take limitNum

/-- A JSON scalar appearing in a formatted leaderboard entry. -/
inductive JVal where
  | str (s : String)
  | num (n : Int)
  | jbool (b : Bool)
  deriving DecidableEq, Repr

/-- Zero-padded two-digit decimal rendering, as produced inside
toISOString for months and days. -/
def padDigits2 (n : Nat) : String :=
  String.mk [Nat.digitChar (n / 10 % 10), Nat.digitChar (n % 10)]

/-- Zero-padded four-digit decimal rendering, as produced inside
toISOString for years. -/
def padDigits4 (n : Nat) : String :=
  String.mk [Nat.digitChar (n / 1000 % 10), Nat.digitChar (n / 100 % 10),
    Nat.digitChar (n / 10 % 10), Nat.digitChar (n % 10)]

/-- date.toISOString().split("T")[0]: the zero-padded YYYY-MM-DD date
string. -/
def isoDateString (d : DateYMD) : String :=
  padDigits4 d.year ++ "-" ++ padDigits2 d.month ++ "-" ++ padDigits2 d.day

/-- The per-record formatting of the leaderboard handlers: each stored
record is rendered as an object with exactly the keys id, playerName,
category, difficulty, time, moves and date, in that order. -/
def formatScore (r : ScoreRecord) : List (String × JVal) :=
  [("id", .num (Int.ofNat r.id)),
   ("playerName", .str r.playerName),
   ("category", .str r.category),
   ("difficulty", .str r.difficulty),
   ("time", .num r.time),
   ("moves", .num r.moves),
   ("date", .str (isoDateString r.date))]

/-- The 200 response body of GET /api/scores and GET /api/scores/me.
filtersLimit models the limit entry of the filters object, which reports
the effective (defaulted and capped) limit. -/
structure LeaderboardResponse where
  success : Bool
  data : List (List (String × JVal))
  count : Nat
  totalCount : Nat
  page : Int
  totalPages : Nat
  filtersLimit : Nat
  deriving DecidableEq, Repr

/-- The GET /api/scores handler (current revision): builds the filter,
queries sorted and paged records, counts all matching documents, formats
the page, and reports pagination data.  totalPages is
Math.ceil(totalCount / limitNum), which for a positive limitNum is the
rounded-up Nat division written here.  The handler writes nothing: the
store is returned unchanged. -/
def getScoresHandler (store : List ScoreRecord) (category difficulty : Option String)
    (limit : Option Nat) (page : Option Int) :
    LeaderboardResponse × List ScoreRecord :=
  let limitNum := min (limit.getD 50) 100
  let pageNum := page.getD 1
  let filtered := store.filter (matchesFilter category difficulty)
  let totalCount := filtered.length
  let scores := selectScores store category difficulty limit page
  let formattedScores := scores.map formatScore
  ({ success := true
     data := formattedScores
     count := formattedScores.length
     totalCount := totalCount
     page := pageNum
     totalPages := (totalCount + limitNum - 1) / limitNum
     filtersLimit := limitNum }, store)

/-- The extra filter clause of GET /api/scores/me: only records owned by
the authenticated user. -/
def matchesUserFilter (userId : Nat) (r : ScoreRecord) : Bool :=
  r.userId == some userId

/-- The record-selection pipeline of GET /api/scores/me: like selectScores
with the userId clause always present, including the MongoDB limit(0) =
no-limit behavior. -/
def selectScoresMe (store : List ScoreRecord) (userId : Nat)
    (category difficulty : Option String) (limit : Option Nat) (page : Option Int) :
    List ScoreRecord :=
  let limitNum := min (limit.getD 50) 100
  let pageNum := page.getD 1
  let skip := ((pageNum - 1) * (limitNum : Int)).toNat
  let sorted := (store.filter (fun r => matchesUserFilter userId r
    && matchesFilter category difficulty r)).mergeSort scoreSortLE
  if limitNum = 0 then sorted.drop skip
  else (sorted.drop skip).take limitNum

/-- The GET /api/scores/me handler (current revision). -/
def getScoresMeHandler (store : List ScoreRecord) (userId : Nat)
    (category difficulty : Option String) (limit : Option Nat) (page : Option Int) :
    LeaderboardResponse × List ScoreRecord :=
  let limitNum := min (limit.getD 50) 100
  let pageNum := page.getD 1
  let filtered := store.filter (fun r => matchesUserFilter userId r
    && matchesFilter category difficulty r)
  let totalCount := filtered.length
  let scores := selectScoresMe store userId category difficulty limit page
  let formattedScores := scores.map formatScore
  ({ success := true
     data := formattedScores
     count := formattedScores.length
     totalCount := totalCount
     page := pageNum
     totalPages := (totalCount + limitNum - 1) / limitNum
     filtersLimit := limitNum }, store)

/-- One HTTP route registered by the application. -/
structure Route where
  method : String
  path : String
  deriving DecidableEq, Repr

/-- Every route the application registers: the game routes mounted at /api,
the auth routes mounted at /api/auth, and the health check, from the
current revisions of gameRoutes.js, authRoutes.js and server.js. -/
def apiRoutes : List Route :=
  [⟨"GET", "/api/categories"⟩,
   ⟨"GET", "/api/difficulties"⟩,
   ⟨"GET", "/api/scores"⟩,
   ⟨"GET", "/api/scores/me"⟩,
   ⟨"POST", "/api/scores"⟩,
   ⟨"GET", "/api/stats"⟩,
   ⟨"POST", "/api/auth/register"⟩,
   ⟨"POST", "/api/auth/login"⟩,
   ⟨"GET", "/api/auth/me"⟩,
   ⟨"GET", "/"⟩]

/-- The shape of one JSON response body a handler can produce: the
endpoint it comes from, its HTTP status, and the list of top-level keys of
the body literal in the source. -/
structure ResponseShape where
  endpoint : String
  status : Nat
  keys : List String
  deriving DecidableEq, Repr

/-- Every response body literal of the application, with its top-level
keys, transcribed from the current revisions of gameRoutes.js,
authRoutes.js and server.js (route handlers, the health check, the 404
catch-all and the error middleware). -/
def apiResponseShapes : List ResponseShape :=
  [⟨"GET /api/categories", 200, ["success", "data", "count", "message", "cached"]⟩,
   ⟨"GET /api/categories", 500, ["success", "error"]⟩,
   ⟨"GET /api/difficulties", 200, ["success", "data", "count", "message", "cached"]⟩,
   ⟨"GET /api/difficulties", 500, ["success", "error"]⟩,
   ⟨"GET /api/scores", 200,
     ["success", "data", "count", "totalCount", "page", "totalPages", "message", "filters"]⟩,
   ⟨"GET /api/scores", 500, ["success", "error", "details"]⟩,
   ⟨"GET /api/scores/me", 200,
     ["success", "data", "count", "totalCount", "page", "totalPages", "message", "filters"]⟩,
   ⟨"GET /api/scores/me", 500, ["success", "error", "details"]⟩,
   ⟨"POST /api/scores", 400, ["success", "error"]⟩,
   ⟨"POST /api/scores", 409, ["success", "error", "message"]⟩,
   ⟨"POST /api/scores", 201, ["success", "data", "message"]⟩,
   ⟨"POST /api/scores", 500, ["success", "error", "details"]⟩,
   ⟨"GET /api/stats", 200, ["success", "data", "message"]⟩,
   ⟨"GET /api/stats", 500, ["success", "error"]⟩,
   ⟨"POST /api/auth/register", 400, ["success", "error"]⟩,
   ⟨"POST /api/auth/register", 201, ["success", "message", "data"]⟩,
   ⟨"POST /api/auth/register", 500, ["success", "error"]⟩,
   ⟨"POST /api/auth/login", 400, ["success", "error"]⟩,
   ⟨"POST /api/auth/login", 200, ["success", "message", "data"]⟩,
   ⟨"POST /api/auth/login", 401, ["success", "error"]⟩,
   ⟨"POST /api/auth/login", 500, ["success", "error"]⟩,
   ⟨"GET /api/auth/me", 200, ["success", "message", "data"]⟩,
   ⟨"GET /", 200,
     ["status", "message", "database", "version", "environment", "endpoints", "timestamp"]⟩,
   ⟨"404 catch-all", 404, ["error", "message"]⟩,
   ⟨"error middleware", 500, ["error", "message"]⟩]

/-- The endpoints whose bodies are produced by route handlers (game and
auth routes), as opposed to the health check, the 404 catch-all and the
error middleware of server.js. -/
def routeHandlerEndpoints : List String :=
  ["GET /api/categories", "GET /api/difficulties", "GET /api/scores",
   "GET /api/scores/me", "POST /api/scores", "GET /api/stats",
   "POST /api/auth/register", "POST /api/auth/login", "GET /api/auth/me"]

/-- Follows the wording of the spec, for comparison with the handler: the
five validation checks in the stated order, first failure wins, yielding
the error message of the first failing check and none when all pass. -/
def specValidationOutcome (req : ScoreRequest) : Option String :=
  if hasRequiredFields req = false then some missingFieldsMsg
  else if req.time.getD 0 < 1 ∨ req.time.getD 0 > 3600 then some "Invalid time value"
  else if req.moves.getD 0 < 1 ∨ req.moves.getD 0 > 1000 then some "Invalid moves value"
  else if (gameCategories.find? (fun cat => cat.id == req.category.getD "")).isNone then
    some invalidCategoryMsg
  else if (gameDifficulties.find? (fun diff => diff.id == req.difficulty.getD "")).isNone then
    some invalidDifficultyMsg
  else none

/-- The worked example of the spec: the submission of Ann. -/
def annRequest : ScoreRequest :=
  { playerName := some "Ann", category := some "heroes", difficulty := some "easy",
    time := some 50, moves := some 20 }

/-- The record the handler persists for the submission of Ann on an empty
store, at time 0, with id 1 and userId 7. -/
def annRecord : ScoreRecord :=
  { id := 1, playerName := "Ann", userId := some 7, category := "heroes",
    difficulty := "easy", time := 50, moves := 20, score := 710,
    date := ⟨2024, 1, 15⟩, createdAt := 0 }

/-- The submission of Ann with the time field replaced. -/
def annRequestWithTime (t : Int) : ScoreRequest :=
  { playerName := some "Ann", category := some "heroes", difficulty := some "easy",
    time := some t, moves := some 20 }

/-- A stored record used as the existing submission in the duplicate
scenarios: Ann, heroes, easy, time 3, moves 5, created 1 second before the
reference time 100000. -/
def storedAnn : ScoreRecord :=
  { id := 1, playerName := "Ann", userId := some 7, category := "heroes",
    difficulty := "easy", time := 3, moves := 5, score := 975,
    date := ⟨2024, 1, 15⟩, createdAt := 99000 }

/-- A resubmission within every duplicate tolerance of storedAnn whose own
time (0) is outside the valid range. -/
def outOfRangeResub : ScoreRequest :=
  { playerName := some "Ann", category := some "heroes", difficulty := some "easy",
    time := some 0, moves := some 5 }

/-- A valid resubmission within every duplicate tolerance of storedAnn,
with the player name in a different letter case. -/
def validResub : ScoreRequest :=
  { playerName := some "ANN", category := some "heroes", difficulty := some "easy",
    time := some 4, moves := some 6 }

/-- A submission with an unknown category, used to exercise the category
check. -/
def villainRequest : ScoreRequest :=
  { playerName := some "Bo", category := some "villains", difficulty := some "easy",
    time := some 10, moves := some 10 }

/-- A two-record store used to exercise the leaderboard queries. -/
def demoStore : List ScoreRecord :=
  [{ id := 1, playerName := "Ann", userId := some 7, category := "heroes",
     difficulty := "easy", time := 30, moves := 12, score := 826,
     date := ⟨2024, 1, 15⟩, createdAt := 99000 },
   { id := 2, playerName := "Bo", userId := some 8, category := "heroes",
     difficulty := "easy", time := 20, moves := 14, score := 872,
     date := ⟨2024, 1, 16⟩, createdAt := 99500 }]

/-- C1: every accepted submission is persisted and returned with score
max(1000 - (time * 5 + moves * 2), 0) computed from the submitted time and
moves, the new record being appended to the store; in particular the
submission of Ann (heroes, easy, time 50, moves 20) yields score 710. -/
theorem post_scores_score_formula_c1 :
    (∀ store now nextId userId today req rec store2,
      postScoresHandler store now nextId userId today req = (.created rec, store2) →
      rec.score = calculatedScore (req.time.getD 0) (req.moves.getD 0) ∧
      rec.score = max (1000 - (req.time.getD 0 * 5 + req.moves.getD 0 * 2)) 0 ∧
      store2 = store ++ [rec]) ∧
    postScoresHandler [] 0 1 7 ⟨2024, 1, 15⟩ annRequest = (.created annRecord, [annRecord])
      ∧ annRecord.score = 710 := by
  refine ⟨?_, by decide, by decide⟩
  intro store now nextId userId today req rec store2 h
  unfold postScoresHandler at h
  dsimp only at h
  split at h
  · simp at h
  split at h
  · simp at h
  split at h
  · simp at h
  split at h
  · simp at h
  split at h
  · simp at h
  split at h
  · simp at h
  rw [Prod.mk.injEq] at h
  obtain ⟨h1, h2⟩ := h
  cases h1
  refine ⟨rfl, by simp [calculatedScore], h2.symm⟩

/-- Witness for C1 at the submission of Ann. -/
theorem post_scores_score_formula_c1_witness :
    annRecord.score = calculatedScore 50 20 := by
  have h := post_scores_score_formula_c1.1 [] 0 1 7 ⟨2024, 1, 15⟩ annRequest annRecord
    [annRecord] (by decide)
  exact h.1

/-- C4: time 0 and time 3601 are rejected as invalid with no record
persisted, while the boundary values 1 and 3600 are accepted and
persisted, all other fields held valid. -/
theorem post_scores_time_bounds_c4 :
    postScoresHandler [] 0 1 7 ⟨2024, 1, 15⟩ (annRequestWithTime 0) =
      (.validationError "Invalid time value", []) ∧
    postScoresHandler [] 0 1 7 ⟨2024, 1, 15⟩ (annRequestWithTime 3601) =
      (.validationError "Invalid time value", []) ∧
    (postScoresHandler [] 0 1 7 ⟨2024, 1, 15⟩ (annRequestWithTime 0)).1.status = 400 ∧
    (postScoresHandler [] 0 1 7 ⟨2024, 1, 15⟩ (annRequestWithTime 1)).1 =
      .created { id := 1, playerName := "Ann", userId := some 7, category := "heroes",
                 difficulty := "easy", time := 1, moves := 20, score := 955,
                 date := ⟨2024, 1, 15⟩, createdAt := 0 } ∧
    (postScoresHandler [] 0 1 7 ⟨2024, 1, 15⟩ (annRequestWithTime 3600)).1 =
      .created { id := 1, playerName := "Ann", userId := some 7, category := "heroes",
                 difficulty := "easy", time := 3600, moves := 20, score := 0,
                 date := ⟨2024, 1, 15⟩, createdAt := 0 } := by
  decide

/-- C6: the derived score is a function of time and moves alone (it is a
Lean function, hence deterministic), non-negative, and non-increasing in
each argument with the other held fixed. -/
theorem calculated_score_monotone_c6 :
    (∀ t m : Int, 0 ≤ calculatedScore t m) ∧
    (∀ t t2 m : Int, t ≤ t2 → calculatedScore t2 m ≤ calculatedScore t m) ∧
    (∀ t m m2 : Int, m ≤ m2 → calculatedScore t m2 ≤ calculatedScore t m) := by
  unfold calculatedScore
  refine ⟨fun t m => le_max_right _ _, ?_, ?_⟩ <;>
    · intro a b c h
      exact max_le_max (by omega) le_rfl

/-- Witness for C6 at time 50 and moves 20 against time 60 and moves 30. -/
theorem calculated_score_monotone_c6_witness :
    0 ≤ calculatedScore 50 20 ∧
    calculatedScore 60 20 ≤ calculatedScore 50 20 ∧
    calculatedScore 50 30 ≤ calculatedScore 50 20 := by
  exact ⟨calculated_score_monotone_c6.1 50 20,
    calculated_score_monotone_c6.2.1 50 60 20 (by decide),
    calculated_score_monotone_c6.2.2 50 20 30 (by decide)⟩


/-- Inversion helper: the only way the POST handler produces a created
response is the final branch, so the persisted record is the literal
newScore record and the store gains exactly that record. -/
theorem postScores_created_inv (store : List ScoreRecord) (now : Int)
    (nextId userId : Nat) (today : DateYMD) (req : ScoreRequest)
    (rec : ScoreRecord) (store2 : List ScoreRecord)
    (h : postScoresHandler store now nextId userId today req = (.created rec, store2)) :
    rec = { id := nextId, playerName := jsTrim (req.playerName.getD ""),
            userId := some userId, category := req.category.getD "",
            difficulty := req.difficulty.getD "", time := req.time.getD 0,
            moves := req.moves.getD 0,
            score := calculatedScore (req.time.getD 0) (req.moves.getD 0),
            date := today, createdAt := now } ∧
    store2 = store ++ [rec] := by
  unfold postScoresHandler at h
  dsimp only at h
  split at h
  · simp at h
  split at h
  · simp at h
  split at h
  · simp at h
  split at h
  · simp at h
  split at h
  · simp at h
  split at h
  · simp at h
  rw [Prod.mk.injEq] at h
  obtain ⟨h1, h2⟩ := h
  cases h1
  exact ⟨rfl, h2.symm⟩

/-- Characterization of a fully valid submission: the spec-side validation
outcome is none exactly when the presence, range and enum checks all
pass. -/
theorem specValidationOutcome_none_iff (req : ScoreRequest) :
    specValidationOutcome req = none ↔
      hasRequiredFields req = true ∧
      ¬(req.time.getD 0 < 1 ∨ req.time.getD 0 > 3600) ∧
      ¬(req.moves.getD 0 < 1 ∨ req.moves.getD 0 > 1000) ∧
      (gameCategories.find? (fun cat => cat.id == req.category.getD "")).isNone = false ∧
      (gameDifficulties.find? (fun diff => diff.id == req.difficulty.getD "")).isNone = false := by
  by_cases h1 : hasRequiredFields req = true <;>
  by_cases h2 : req.time.getD 0 < 1 ∨ req.time.getD 0 > 3600 <;>
  by_cases h3 : req.moves.getD 0 < 1 ∨ req.moves.getD 0 > 1000 <;>
  by_cases h4 : (gameCategories.find? (fun cat => cat.id == req.category.getD "")).isNone = true <;>
  by_cases h5 : (gameDifficulties.find? (fun diff => diff.id == req.difficulty.getD "")).isNone = true <;>
    simp [specValidationOutcome, h1, h2, h3, h4, h5, Bool.not_eq_true]

/-- C3: the submission handler applies the five validation checks in the
stated order with first failure winning: whenever the spec-side ordered
validation yields an error message, the handler rejects with exactly that
message (HTTP 400) and an unchanged store; and when all five checks pass,
the handler never produces a validation rejection. -/
theorem post_scores_validation_order_c3 :
    ∀ store now nextId userId today req,
      (∀ e, specValidationOutcome req = some e →
        postScoresHandler store now nextId userId today req = (.validationError e, store) ∧
        (postScoresHandler store now nextId userId today req).1.status = 400) ∧
      (specValidationOutcome req = none →
        ∀ e, (postScoresHandler store now nextId userId today req).1 ≠ .validationError e) := by
  intro store now nextId userId today req
  by_cases h1 : hasRequiredFields req = true <;>
  by_cases h2 : req.time.getD 0 < 1 ∨ req.time.getD 0 > 3600 <;>
  by_cases h3 : req.moves.getD 0 < 1 ∨ req.moves.getD 0 > 1000 <;>
  by_cases h4 : (gameCategories.find? (fun cat => cat.id == req.category.getD "")).isNone = true <;>
  by_cases h5 : (gameDifficulties.find? (fun diff => diff.id == req.difficulty.getD "")).isNone = true <;>
    simp [specValidationOutcome, postScoresHandler, PostResponse.status,
      h1, h2, h3, h4, h5, Bool.not_eq_true] <;>
    split <;> simp


/-- C2 (amended): a submission that passes validation and matches a stored
record on player name up to case, category and difficulty, with createdAt
within the last 10 seconds and time and moves within the stated
tolerances, is rejected with the duplicate conflict (HTTP 409) and the
store is unchanged. -/
theorem post_scores_duplicate_suppression_c2 :
    ∀ store now nextId userId today req r,
      r ∈ store →
      specValidationOutcome req = none →
      sameNameCaseInsensitive r.playerName (jsTrim (req.playerName.getD "")) = true →
      r.category = req.category.getD "" →
      r.difficulty = req.difficulty.getD "" →
      now - 10000 ≤ r.createdAt →
      req.time.getD 0 - 5 ≤ r.time → r.time ≤ req.time.getD 0 + 5 →
      req.moves.getD 0 - 2 ≤ r.moves → r.moves ≤ req.moves.getD 0 + 2 →
      postScoresHandler store now nextId userId today req =
        (.duplicateError "Duplicate score detected"
          "A very similar score was already submitted recently", store) ∧
      (postScoresHandler store now nextId userId today req).1.status = 409 := by
  intro store now nextId userId today req r hr hv hname hcat hdiff hc ht1 ht2 hm1 hm2
  obtain ⟨h1, h2, h3, h4, h5⟩ := (specValidationOutcome_none_iff req).mp hv
  have hdup : isRecentDuplicate store now (req.playerName.getD "")
      (req.category.getD "") (req.difficulty.getD "")
      (req.time.getD 0) (req.moves.getD 0) = true := by
    unfold isRecentDuplicate
    rw [List.any_eq_true]
    refine ⟨r, hr, ?_⟩
    simp only [Bool.and_eq_true, decide_eq_true_eq, beq_iff_eq]
    exact ⟨⟨⟨⟨⟨⟨⟨hname, hcat⟩, hdiff⟩, hc⟩, ht1⟩, ht2⟩, hm1⟩, hm2⟩
  have hmain : postScoresHandler store now nextId userId today req =
      (.duplicateError "Duplicate score detected"
        "A very similar score was already submitted recently", store) := by
    unfold postScoresHandler
    dsimp only
    simp [h1, h2, h3, h4, h5, hdup]
  refine ⟨hmain, ?_⟩
  rw [hmain]
  rfl

/-- Witness for C2: a valid resubmission in a different letter case,
within all tolerances of the stored record, gets the conflict response. -/
theorem post_scores_duplicate_suppression_c2_witness :
    postScoresHandler [storedAnn] 100000 2 7 ⟨2024, 1, 16⟩ validResub =
      (.duplicateError "Duplicate score detected"
        "A very similar score was already submitted recently", [storedAnn]) := by
  exact (post_scores_duplicate_suppression_c2 [storedAnn] 100000 2 7 ⟨2024, 1, 16⟩
    validResub storedAnn (by simp) (by decide) (by decide) (by decide) (by decide)
    (by decide) (by decide) (by decide) (by decide) (by decide)).1

/-- Counterexample to C2 as stated: a resubmission within every duplicate
tolerance of a record created inside the 10-second window, whose own time
value (0) is out of range, is rejected by validation with HTTP 400, not
with the duplicate conflict 409. -/
theorem post_scores_duplicate_counterexample_c2 :
    storedAnn ∈ [storedAnn] ∧
    sameNameCaseInsensitive storedAnn.playerName
      (jsTrim (outOfRangeResub.playerName.getD "")) = true ∧
    storedAnn.category = outOfRangeResub.category.getD "" ∧
    storedAnn.difficulty = outOfRangeResub.difficulty.getD "" ∧
    (100000 : Int) - 10000 ≤ storedAnn.createdAt ∧
    outOfRangeResub.time.getD 0 - 5 ≤ storedAnn.time ∧
    storedAnn.time ≤ outOfRangeResub.time.getD 0 + 5 ∧
    outOfRangeResub.moves.getD 0 - 2 ≤ storedAnn.moves ∧
    storedAnn.moves ≤ outOfRangeResub.moves.getD 0 + 2 ∧
    (postScoresHandler [storedAnn] 100000 2 7 ⟨2024, 1, 16⟩ outOfRangeResub).1 =
      .validationError "Invalid time value" ∧
    (postScoresHandler [storedAnn] 100000 2 7 ⟨2024, 1, 16⟩ outOfRangeResub).1.status
      = 400 ∧
    (postScoresHandler [storedAnn] 100000 2 7 ⟨2024, 1, 16⟩ outOfRangeResub).2 =
      [storedAnn] := by
  decide

/-- C5: the stored score never comes from the request body (a score field
in the body leaves the handler output unchanged), every persisted score is
the non-negative derived value, and the application registers only GET and
POST routes, so no update or delete endpoint exists. -/
theorem score_server_derived_c5 :
    (∀ store now nextId userId today req v,
      postScoresHandler store now nextId userId today { req with score := v } =
        postScoresHandler store now nextId userId today req) ∧
    (∀ store now nextId userId today req rec store2,
      postScoresHandler store now nextId userId today req = (.created rec, store2) →
      0 ≤ rec.score ∧
      rec.score = calculatedScore (req.time.getD 0) (req.moves.getD 0)) ∧
    (∀ rt ∈ apiRoutes, rt.method = "GET" ∨ rt.method = "POST") := by
  refine ⟨?_, ?_, by decide⟩
  · intro store now nextId userId today req v
    cases req
    rfl
  · intro store now nextId userId today req rec store2 h
    obtain ⟨h1, h2⟩ := postScores_created_inv store now nextId userId today req rec store2 h
    subst h1
    exact ⟨le_max_right _ _, rfl⟩

/-- Witness for C5 at the submission of Ann with a bogus client score. -/
theorem score_server_derived_c5_witness :
    postScoresHandler [] 0 1 7 ⟨2024, 1, 15⟩ { annRequest with score := some 999999 } =
      postScoresHandler [] 0 1 7 ⟨2024, 1, 15⟩ annRequest ∧
    0 ≤ annRecord.score ∧
    ((⟨"GET", "/api/scores"⟩ : Route).method = "GET" ∨
      (⟨"GET", "/api/scores"⟩ : Route).method = "POST") := by
  refine ⟨score_server_derived_c5.1 [] 0 1 7 ⟨2024, 1, 15⟩ annRequest (some 999999), ?_, ?_⟩
  · exact (score_server_derived_c5.2.1 [] 0 1 7 ⟨2024, 1, 15⟩ annRequest annRecord
      [annRecord] (by decide)).1
  · exact score_server_derived_c5.2.2 ⟨"GET", "/api/scores"⟩ (by decide)


/-- The Bool sort key agrees with the lexicographic time-then-moves
order. -/
theorem scoreSortLE_iff (a b : ScoreRecord) :
    scoreSortLE a b = true ↔
      (a.time < b.time ∨ (a.time = b.time ∧ a.moves ≤ b.moves)) := by
  simp [scoreSortLE, Bool.or_eq_true, Bool.and_eq_true, decide_eq_true_eq,
    beq_iff_eq]

/-- Transitivity of the sort key. -/
theorem scoreSortLE_trans : ∀ a b c : ScoreRecord,
    scoreSortLE a b = true → scoreSortLE b c = true → scoreSortLE a c = true := by
  intro a b c hab hbc
  rw [scoreSortLE_iff] at *
  omega

/-- Totality of the sort key. -/
theorem scoreSortLE_total : ∀ a b : ScoreRecord,
    (scoreSortLE a b || scoreSortLE b a) = true := by
  intro a b
  rw [Bool.or_eq_true, scoreSortLE_iff, scoreSortLE_iff]
  omega

/-- C7 (amended): a leaderboard query with category and difficulty filters
and a positive limit returns at most limit entries, while limit 0 is the
MongoDB no-limit case and returns every matching record; each entry is the
formatting of a stored record matching both filters, the selected records
are ordered by time ascending then moves ascending, and the store is
unchanged. -/
theorem get_scores_leaderboard_c7 :
    ∀ store c d lim pg,
      c ≠ "" → c ≠ "all" → d ≠ "" → d ≠ "all" →
      ((getScoresHandler store (some c) (some d) (some lim) pg).1.data =
        (selectScores store (some c) (some d) (some lim) pg).map formatScore) ∧
      (0 < lim →
        (getScoresHandler store (some c) (some d) (some lim) pg).1.data.length ≤ lim) ∧
      (lim = 0 → pg = none →
        (getScoresHandler store (some c) (some d) (some lim) pg).1.data.length =
          (store.filter (matchesFilter (some c) (some d))).length) ∧
      (∀ r ∈ selectScores store (some c) (some d) (some lim) pg,
        r ∈ store ∧ r.category = c ∧ r.difficulty = d) ∧
      (selectScores store (some c) (some d) (some lim) pg).Pairwise
        (fun a b => a.time < b.time ∨ (a.time = b.time ∧ a.moves ≤ b.moves)) ∧
      (getScoresHandler store (some c) (some d) (some lim) pg).2 = store := by
  intro store c d lim pg hc1 hc2 hd1 hd2
  refine ⟨rfl, ?_, ?_, ?_, ?_, rfl⟩
  · intro hpos
    show ((selectScores store (some c) (some d) (some lim) pg).map formatScore).length ≤ lim
    rw [List.length_map]
    dsimp only [selectScores]
    simp only [Option.getD_some]
    rw [if_neg (by omega)]
    calc (((((store.filter (matchesFilter (some c) (some d))).mergeSort
            scoreSortLE).drop _).take (min lim 100))).length
        ≤ min lim 100 := by rw [List.length_take]; omega
      _ ≤ lim := by omega
  · intro hzero hpg
    subst hzero
    subst hpg
    show ((selectScores store (some c) (some d) (some 0) none).map formatScore).length =
      (store.filter (matchesFilter (some c) (some d))).length
    rw [List.length_map]
    dsimp only [selectScores]
    simp only [Option.getD_some]
    rw [if_pos (by omega)]
    norm_num [List.length_mergeSort]
  · intro r hrsel
    dsimp only [selectScores] at hrsel
    have h1 : r ∈ (store.filter (matchesFilter (some c) (some d))).mergeSort
        scoreSortLE := by
      split at hrsel
      · exact List.mem_of_mem_drop hrsel
      · exact List.mem_of_mem_drop (List.mem_of_mem_take hrsel)
    rw [List.mem_mergeSort, List.mem_filter] at h1
    obtain ⟨hs, hm⟩ := h1
    simp only [matchesFilter, matchesCategoryFilter, matchesDifficultyFilter,
      Bool.and_eq_true] at hm
    refine ⟨hs, ?_, ?_⟩
    · have := hm.1
      rw [if_pos ⟨hc1, hc2⟩] at this
      exact beq_iff_eq.mp this
    · have := hm.2
      rw [if_pos ⟨hd1, hd2⟩] at this
      exact beq_iff_eq.mp this
  · have hsorted := List.sorted_mergeSort scoreSortLE_trans scoreSortLE_total
      (store.filter (matchesFilter (some c) (some d)))
    have hsub : (selectScores store (some c) (some d) (some lim) pg).Sublist
        ((store.filter (matchesFilter (some c) (some d))).mergeSort scoreSortLE) := by
      dsimp only [selectScores]
      split
      · exact List.drop_sublist _ _
      · exact (List.take_sublist _ _).trans (List.drop_sublist _ _)
    exact (List.Pairwise.sublist hsub hsorted).imp
      (fun hab => (scoreSortLE_iff _ _).mp hab)

/-- Counterexample to C7 as stated: at limit 0, which MongoDB treats as no
limit, the query over the two matching demo records returns both of them,
so the response does not hold at most limit (that is, zero) records. -/
theorem get_scores_limit_zero_counterexample_c7 :
    (getScoresHandler demoStore (some "heroes") (some "easy") (some 0)
      none).1.data.length = 2 ∧
    ¬((getScoresHandler demoStore (some "heroes") (some "easy") (some 0)
      none).1.data.length ≤ 0) := by
  have h : (getScoresHandler demoStore (some "heroes") (some "easy") (some 0)
      none).1.data.length = 2 := by
    show ((selectScores demoStore (some "heroes") (some "easy") (some 0)
      none).map formatScore).length = 2
    rw [List.length_map]
    dsimp only [selectScores]
    rw [if_pos (by decide)]
    norm_num [List.length_mergeSort]
    decide
  exact ⟨h, by omega⟩


/-- C8: the category and difficulty filters are applied only when present
and not the literal "all" (absence and "all" filter nothing, and an
applied filter is exact equality); limit defaults to 50 and is capped at
100; page defaults to 1; and totalPages times the effective limit is the
least multiple covering totalCount, i.e. the rounded-up quotient. -/
theorem get_scores_filters_pagination_c8 :
    (∀ store diffF lim pg,
      getScoresHandler store none diffF lim pg =
        getScoresHandler store (some "all") diffF lim pg) ∧
    (∀ store catF lim pg,
      getScoresHandler store catF none lim pg =
        getScoresHandler store catF (some "all") lim pg) ∧
    (∀ (c : String) (r : ScoreRecord), c ≠ "" → c ≠ "all" →
      matchesCategoryFilter (some c) r = (r.category == c)) ∧
    (∀ (d : String) (r : ScoreRecord), d ≠ "" → d ≠ "all" →
      matchesDifficultyFilter (some d) r = (r.difficulty == d)) ∧
    (∀ store catF diffF pg,
      (getScoresHandler store catF diffF none pg).1.filtersLimit = 50) ∧
    (∀ store catF diffF lim pg,
      (getScoresHandler store catF diffF (some lim) pg).1.filtersLimit = min lim 100) ∧
    (∀ store catF diffF lim,
      (getScoresHandler store catF diffF lim none).1.page = 1) ∧
    (∀ store catF diffF lim pg,
      0 < (getScoresHandler store catF diffF lim pg).1.filtersLimit →
      ((getScoresHandler store catF diffF lim pg).1.totalCount ≤
        (getScoresHandler store catF diffF lim pg).1.totalPages *
          (getScoresHandler store catF diffF lim pg).1.filtersLimit ∧
      ∀ n, (getScoresHandler store catF diffF lim pg).1.totalCount ≤
          n * (getScoresHandler store catF diffF lim pg).1.filtersLimit →
        (getScoresHandler store catF diffF lim pg).1.totalPages ≤ n)) := by
  refine ⟨?_, ?_, ?_, ?_, fun _ _ _ _ => rfl, fun _ _ _ _ _ => rfl,
    fun _ _ _ _ => rfl, ?_⟩
  · intro store diffF lim pg
    have hfilter : store.filter (matchesFilter none diffF) =
        store.filter (matchesFilter (some "all") diffF) :=
      List.filter_congr (fun x _ => by simp [matchesFilter, matchesCategoryFilter])
    simp [getScoresHandler, selectScores, hfilter]
  · intro store catF lim pg
    have hfilter : store.filter (matchesFilter catF none) =
        store.filter (matchesFilter catF (some "all")) :=
      List.filter_congr (fun x _ => by simp [matchesFilter, matchesDifficultyFilter])
    simp [getScoresHandler, selectScores, hfilter]
  · intro c r hc1 hc2
    simp only [matchesCategoryFilter]
    rw [if_pos ⟨hc1, hc2⟩]
  · intro d r hd1 hd2
    simp only [matchesDifficultyFilter]
    rw [if_pos ⟨hd1, hd2⟩]
  · intro store catF diffF lim pg hL
    constructor
    · show (store.filter (matchesFilter catF diffF)).length ≤
        (((store.filter (matchesFilter catF diffF)).length + min (lim.getD 50) 100 - 1)
          / min (lim.getD 50) 100) * min (lim.getD 50) 100
      have hL2 : 0 < min (lim.getD 50) 100 := hL
      set tc := (store.filter (matchesFilter catF diffF)).length with htc
      set L := min (lim.getD 50) 100 with hLdef
      have h1 := Nat.div_add_mod (tc + L - 1) L
      have h2 := Nat.mod_lt (tc + L - 1) hL2
      rw [Nat.mul_comm]
      generalize hP : L * ((tc + L - 1) / L) = P at h1 ⊢
      omega
    · intro n hn
      show ((store.filter (matchesFilter catF diffF)).length + min (lim.getD 50) 100 - 1)
          / min (lim.getD 50) 100 ≤ n
      have hL2 : 0 < min (lim.getD 50) 100 := hL
      set tc := (store.filter (matchesFilter catF diffF)).length with htc
      set L := min (lim.getD 50) 100 with hLdef
      have hn2 : tc ≤ n * L := hn
      rw [← Nat.lt_succ_iff, Nat.div_lt_iff_lt_mul hL2, Nat.succ_mul]
      generalize hP : n * L = P at hn2 ⊢
      omega

/-- C10: every leaderboard entry of GET /api/scores and GET /api/scores/me
has exactly the keys id, playerName, category, difficulty, time, moves and
date, in that order, so neither the derived score nor the userId is
exposed; the date value is the YYYY-MM-DD rendering (10 characters) of the
record date. -/
theorem leaderboard_entry_fields_c10 :
    (∀ r : ScoreRecord, (formatScore r).map Prod.fst =
      ["id", "playerName", "category", "difficulty", "time", "moves", "date"]) ∧
    (∀ r : ScoreRecord, "score" ∉ (formatScore r).map Prod.fst ∧
      "userId" ∉ (formatScore r).map Prod.fst) ∧
    (∀ store catF diffF lim pg,
      (getScoresHandler store catF diffF lim pg).1.data =
        (selectScores store catF diffF lim pg).map formatScore) ∧
    (∀ store uid catF diffF lim pg,
      (getScoresMeHandler store uid catF diffF lim pg).1.data =
        (selectScoresMe store uid catF diffF lim pg).map formatScore) ∧
    (∀ r : ScoreRecord,
      (formatScore r).getLast? = some ("date", .str (isoDateString r.date))) ∧
    (∀ d : DateYMD, (isoDateString d).length = 10) := by
  refine ⟨fun r => rfl, fun r => ?_, fun _ _ _ _ _ => rfl,
    fun _ _ _ _ _ _ => rfl, fun r => rfl, fun d => rfl⟩
  constructor <;> simp [formatScore]

/-- C9 (amended): every response body produced by a game or auth route
handler carries a success flag, while the server-level bodies (health
check, 404 catch-all, error middleware) carry none. -/
theorem response_shape_success_c9 :
    (∀ s ∈ apiResponseShapes, s.endpoint ∈ routeHandlerEndpoints →
      "success" ∈ s.keys) ∧
    (∀ s ∈ apiResponseShapes, s.endpoint ∉ routeHandlerEndpoints →
      "success" ∉ s.keys) := by
  decide

/-- Counterexample to C9 as stated: the 404 catch-all of server.js
responds with only error and message keys and no success flag, so not
every HTTP response of the API contains a boolean success field. -/
theorem response_shape_counterexample_c9 :
    (⟨"404 catch-all", 404, ["error", "message"]⟩ : ResponseShape) ∈
      apiResponseShapes ∧
    "success" ∉ (⟨"404 catch-all", 404, ["error", "message"]⟩ : ResponseShape).keys ∧
    ¬ (∀ s ∈ apiResponseShapes, "success" ∈ s.keys) := by
  decide


/-- Witness for C3 at a submission with the unknown category villains. -/
theorem post_scores_validation_order_c3_witness :
    postScoresHandler [] 0 1 7 ⟨2024, 1, 15⟩ villainRequest =
      (.validationError invalidCategoryMsg, []) := by
  exact ((post_scores_validation_order_c3 [] 0 1 7 ⟨2024, 1, 15⟩ villainRequest).1
    invalidCategoryMsg (by decide)).1

/-- Witness for C7 on the two-record store with the heroes and easy
filters and limit 10. -/
theorem get_scores_leaderboard_c7_witness :
    (getScoresHandler demoStore (some "heroes") (some "easy") (some 10) none).2 =
      demoStore ∧
    (getScoresHandler demoStore (some "heroes") (some "easy") (some 10)
      none).1.data.length ≤ 10 := by
  have h := get_scores_leaderboard_c7 demoStore "heroes" "easy" 10 none
    (by decide) (by decide) (by decide) (by decide)
  exact ⟨h.2.2.2.2.2, h.2.1 (by decide)⟩

/-- Witness for C8 on the two-record store: default limit and the ceiling
bound of totalPages. -/
theorem get_scores_filters_pagination_c8_witness :
    (getScoresHandler demoStore (some "heroes") (some "easy") none
      none).1.filtersLimit = 50 ∧
    (getScoresHandler demoStore (some "heroes") (some "easy") none
        none).1.totalCount ≤
      (getScoresHandler demoStore (some "heroes") (some "easy") none
          none).1.totalPages *
        (getScoresHandler demoStore (some "heroes") (some "easy") none
          none).1.filtersLimit := by
  refine ⟨get_scores_filters_pagination_c8.2.2.2.2.1 demoStore (some "heroes")
    (some "easy") none, ?_⟩
  exact (get_scores_filters_pagination_c8.2.2.2.2.2.2.2 demoStore (some "heroes")
    (some "easy") none none (by decide)).1

/-- Witness for C9 at the 201 response of the score submission route. -/
theorem response_shape_success_c9_witness :
    "success" ∈ (⟨"POST /api/scores", 201,
      ["success", "data", "message"]⟩ : ResponseShape).keys := by
  exact response_shape_success_c9.1
    ⟨"POST /api/scores", 201, ["success", "data", "message"]⟩ (by decide) (by decide)

/-- Witness for C10 at a concrete stored record. -/
theorem leaderboard_entry_fields_c10_witness :
    (formatScore storedAnn).map Prod.fst =
      ["id", "playerName", "category", "difficulty", "time", "moves", "date"] ∧
    "score" ∉ (formatScore storedAnn).map Prod.fst := by
  exact ⟨leaderboard_entry_fields_c10.1 storedAnn,
    (leaderboard_entry_fields_c10.2.1 storedAnn).1⟩

end FunkoAPI

